import Mathlib

/-!
Verification development for the CSV-QUERY repository (`csvquery2.py`).

The file shallow-embeds the program's core functions:
`create_db_from_file`, `initialize_agent`, `query_agent`, and the three
Streamlit handlers (upload, Clear Conversation, question processing).
External library behaviour (pandas parsing, the hosted language model) is
modelled as black-box `Except`-valued functions carried by the inputs.
-/

/-- A parsed tabular dataset: a `pandas.DataFrame`, reduced to its column
names and its rows of cell values. -/
structure DataFrame where
  columns : List String
  rows : List (List String)
deriving DecidableEq

/-- An uploaded source file: its path together with the outcome of handing
its raw bytes to each pandas reader.  `read_csv` is the result of
`pd.read_csv` on the file, `read_excel` the result of `pd.read_excel`;
both are external library calls treated as black boxes that either return
a dataframe or raise (modelled as `Except.error` carrying `str(e)`). -/
structure SourceFile where
  path : String
  read_csv : Except String DataFrame
  read_excel : Except String DataFrame

/-- `os.path.basename`: the part of the path after the last `/`. -/
def basename (p : String) : String :=
  String.mk ((p.data.reverse.takeWhile (fun c => c != '/')).reverse)

/-- `os.path.splitext`: split off the extension at the last dot of the
base name, provided that dot lies after the last separator and the base
name does not consist solely of leading dots up to it (so `.bashrc` has
no extension), exactly as `genericpath._splitext` does. -/
def splitext (p : String) : String × String :=
  let b := (p.data.reverse.takeWhile (fun c => c != '/')).reverse
  let tail := b.reverse.takeWhile (fun c => c != '.')
  if b.contains '.' && (b.take (b.length - (tail.length + 1))).any (fun c => c != '.') then
    (String.mk (p.data.take (p.data.length - (tail.length + 1))),
     String.mk ('.' :: tail.reverse))
  else (p, "")

/-- Python `str.lower`, character-wise (ASCII, which covers every input
the program compares against). -/
def pyLower (s : String) : String :=
  String.mk (s.data.map Char.toLower)

/-- Python `str.replace(a, b)` for single-character `a`, `b`: replace
every occurrence of `a` by `b`. -/
def pyReplace (a b : Char) (s : String) : String :=
  String.mk (s.data.map (fun c => if c = a then b else c))

/-- Line 92 of `csvquery2.py`:
`table_name = filename.lower().replace(' ', '_').replace('-', '_')`. -/
def deriveDefaultTableName (filename : String) : String :=
  pyReplace '-' '_' (pyReplace ' ' '_' (pyLower filename))

/-- A SQLite database file: an association list from table name to its
contents.  `df.to_sql` with `if_exists='replace'` overwrites the entry. -/
abbrev Store := List (String × DataFrame)

/-- `to_sql(..., if_exists='replace')`: drop any table of the same name,
then write the dataframe under that name. -/
def storeSet (st : Store) (name : String) (df : DataFrame) : Store :=
  (name, df) :: st.filter (fun p => p.1 != name)

/-- Read a table back out of a database file. -/
def storeGet (st : Store) (name : String) : Option DataFrame :=
  (st.find? (fun p => p.1 == name)).map Prod.snd

/-- The local working directory's database files, keyed by file name
(`create_engine` with a sqlite URL targets one of them). -/
abbrev Disk := List (String × Store)

/-- The store backing a database file name; `create_engine` creates the
file if it does not exist yet (an empty store). -/
def diskGetStore (d : Disk) (file : String) : Store :=
  ((d.find? (fun p => p.1 == file)).map Prod.snd).getD []

/-- Write one table into one database file on disk. -/
def diskWrite (d : Disk) (file : String) (name : String) (df : DataFrame) : Disk :=
  (file, storeSet (diskGetStore d file) name df) :: d.filter (fun p => p.1 != file)

/-- Querying a table through a bound `SQLDatabase` handle (the handle is
the database file name the engine points at). -/
def queryTable (d : Disk) (handle : String) (name : String) : Option DataFrame :=
  storeGet (diskGetStore d handle) name

/-- Lines 85-108: `create_db_from_file(file_path, table_name=None)`.
Derives the stem of the base name, the default table name, and the
database file name; lower-cases the extension; dispatches on it
(`.csv` → `pd.read_csv`, `.xlsx`/`.xls` → `pd.read_excel`, otherwise
a raised ValueError naming the unsupported extension); then
bulk-writes the dataframe with `if_exists='replace'` and returns the
database handle and the dataframe. -/
def create_db_from_file (disk : Disk) (file : SourceFile) (table_name : Option String) :
    Except String (Disk × String × DataFrame) :=
  let filename := (splitext (basename file.path)).1
  let tname :=
    match table_name with
    | none => deriveDefaultTableName filename
    | some t => t
  let db_filename := filename ++ ".db"
  let file_extension := pyLower (splitext file.path).2
  if file_extension = ".csv" then
    match file.read_csv with
    | .ok df => .ok (diskWrite disk db_filename tname df, db_filename, df)
    | .error e => .error e
  else if file_extension = ".xlsx" ∨ file_extension = ".xls" then
    match file.read_excel with
    | .ok df => .ok (diskWrite disk db_filename tname df, db_filename, df)
    | .error e => .error e
  else
    .error ("Unsupported file format: " ++ file_extension)

/-- Lines 116-137: the system message handed to `create_react_agent`,
reproduced verbatim (the Python triple-quoted literal, including its
leading newline and four-space indentation). -/
def system_message : String :=
  "\n    You are an agent designed to interact with a SQL database.\n    Given an input question, create a syntactically correct SQLite query to run,\n    then look at the results of the query and return the answer. Unless the user\n    specifies a specific number of examples they wish to obtain, always limit your\n    query to at most 5 results.\n\n    You can order the results by a relevant column to return the most interesting\n    examples in the database. Never query for all the columns from a specific table,\n    only ask for the relevant columns given the question.\n\n    You MUST double check your query before executing it. If you get an error while\n    executing a query, rewrite the query and try again.\n\n    DO NOT make any DML statements (INSERT, UPDATE, DELETE, DROP etc.) to the\n    database.\n\n    To start you should ALWAYS look at the tables in the database to see what you\n    can query. Do NOT skip this step.\n\n    Then you should query the schema of the most relevant tables.\n    "

/-- The row-limit sentence inside `system_message` (with the literal's
line break and indentation). -/
def limit_instruction : String :=
  "Unless the user\n    specifies a specific number of examples they wish to obtain, always limit your\n    query to at most 5 results."

/-- The react agent returned by `create_react_agent(llm, tools, prompt=...)`:
its system prompt plus its external behaviour.  The behaviour (the hosted
language model driving the SQL toolkit) is a black box mapping a question
to either a final answer string or a raised exception's message. -/
structure Agent where
  prompt : String
  behavior : String → Except String String

/-- Lines 110-140: `initialize_agent(db)` builds the react agent over the
bound database with `system_message` as its prompt.  The LLM/toolkit loop
is external, so it is passed in as the black-box `behavior`. -/
def initialize_agent (db : String) (behavior : String → Except String String) : Agent :=
  ⟨system_message, behavior⟩

/-- Lines 142-148: `query_agent(agent, question)` — invoke the agent
inside `try`, returning the last message's content; any exception is
caught and rendered as the text Error: followed by the message. -/
def query_agent (agent : Agent) (question : String) : String :=
  match agent.behavior question with
  | .ok answer => answer
  | .error e => "Error: " ++ e

/-- Lines 150-160: the Streamlit session state — bound database handle,
agent, dataframe preview, chat history and the question counter. -/
structure SessionState where
  db : Option String
  agent : Option Agent
  df : Option DataFrame
  chat_history : List (String × String)
  question_counter : Nat

/-- Lines 192-202: the upload handler's `try` block.  On success the
session binds the new database handle, dataframe and a fresh agent; on
any exception the error is rendered to the user
(the Error processing file text followed by the message), and nothing
else happens.
Returns the disk, the session state, and the error message shown
(`none` on success). -/
def upload_handler (disk : Disk) (s : SessionState) (tmpFile : SourceFile)
    (behavior : String → Except String String) :
    Disk × SessionState × Option String :=
  match create_db_from_file disk tmpFile none with
  | .ok (disk2, dbf, df) =>
      (disk2,
       { s with db := some dbf, df := some df, agent := some (initialize_agent dbf behavior) },
       none)
  | .error e => (disk, s, some ("❌ Error processing file: " ++ e))

/-- Lines 204-206: the Clear Conversation button sets
`st.session_state.chat_history = []` and reruns. -/
def clear_conversation (s : SessionState) : SessionState :=
  { s with chat_history := [] }

/-- Lines 296-302: `if ask_button and user_question and st.session_state.agent:`
— only when the button fired, the question is non-empty and an agent is
bound does the turn run: the answer is computed, one
`(question, answer)` pair is appended to the history, and the question
counter is incremented. -/
def process_question (s : SessionState) (ask_button : Bool) (user_question : String) :
    SessionState :=
  match s.agent with
  | some agent =>
      if ask_button ∧ user_question ≠ "" then
        { s with
          chat_history := s.chat_history ++ [(user_question, query_agent agent user_question)],
          question_counter := s.question_counter + 1 }
      else s
  | none => s

/-- The extension allow-list of the ingestor (after lower-casing), in the
order the code tests it. -/
def allowedExtensions : List String := [".csv", ".xlsx", ".xls"]

/-- The reader matching the file's (lower-cased) extension succeeds with
`df` — the hypothesis under which lines 97-100 bind `df`. -/
def readOk (file : SourceFile) (df : DataFrame) : Prop :=
  (pyLower (splitext file.path).2 = ".csv" ∧ file.read_csv = .ok df)
  ∨ ((pyLower (splitext file.path).2 = ".xlsx" ∨ pyLower (splitext file.path).2 = ".xls")
      ∧ file.read_excel = .ok df)

section Lemmas

/-- Sanity checks of the path model against Python's `os.path`. -/
theorem splitext_examples :
    basename "dir/file.tar.csv" = "file.tar.csv"
    ∧ splitext "dir/file.tar.csv" = ("dir/file.tar", ".csv")
    ∧ splitext ".bashrc" = (".bashrc", "")
    ∧ splitext "a.b/c" = ("a.b/c", "")
    ∧ pyLower ".CSV" = ".csv"
    ∧ deriveDefaultTableName "My Sales-Data" = "my_sales_data" := by
  refine ⟨by decide, by decide, by decide, by decide, by decide, by decide⟩

/-- When the matching reader succeeds, ingestion returns the written disk,
the database handle and the parsed dataframe. -/
theorem create_db_from_file_ok (disk : Disk) (file : SourceFile) (df : DataFrame)
    (h : readOk file df) :
    create_db_from_file disk file none =
      .ok (diskWrite disk ((splitext (basename file.path)).1 ++ ".db")
             (deriveDefaultTableName (splitext (basename file.path)).1) df,
           (splitext (basename file.path)).1 ++ ".db", df) := by
  rcases h with ⟨h1, h2⟩ | ⟨h1, h2⟩
  · simp [create_db_from_file, h1, h2]
  · rcases h1 with h1 | h1 <;> simp [create_db_from_file, h1, h2]

/-- An extension outside the allow-list makes ingestion raise the
`ValueError`. -/
theorem create_db_from_file_unsupported (disk : Disk) (file : SourceFile)
    (t : Option String)
    (h : pyLower (splitext file.path).2 ∉ allowedExtensions) :
    create_db_from_file disk file t =
      .error ("Unsupported file format: " ++ pyLower (splitext file.path).2) := by
  simp only [allowedExtensions, List.mem_cons, List.not_mem_nil, or_false, not_or] at h
  obtain ⟨h1, h2, h3⟩ := h
  simp [create_db_from_file, h1, h2, h3]

/-- Reading back the table just written through the returned handle gives
exactly the written dataframe. -/
theorem queryTable_diskWrite (d : Disk) (f n : String) (df : DataFrame) :
    queryTable (diskWrite d f n df) f n = some df := by
  simp [queryTable, diskWrite, diskGetStore, storeGet, storeSet, List.find?]

end Lemmas

/-- C1: an uploaded file whose lower-cased extension is outside the
allow-list (csv, xlsx, xls) makes `create_db_from_file` fail with the
`ValueError` message `Unsupported file format: <ext>`, and the upload
handler leaves the disk and the whole session state — bound db handle,
dataframe, agent, history, counter — unchanged, surfacing only the error
message. -/
theorem unsupported_extension_rejected (disk : Disk) (s : SessionState)
    (file : SourceFile) (behavior : String → Except String String)
    (h : pyLower (splitext file.path).2 ∉ allowedExtensions) :
    create_db_from_file disk file none =
      .error ("Unsupported file format: " ++ pyLower (splitext file.path).2)
    ∧ upload_handler disk s file behavior =
        (disk, s, some ("❌ Error processing file: "
          ++ ("Unsupported file format: " ++ pyLower (splitext file.path).2))) := by
  have hc := create_db_from_file_unsupported disk file none h
  exact ⟨hc, by simp [upload_handler, hc]⟩

/-- Witness for C1 at the concrete upload `notes.txt`. -/
theorem unsupported_extension_rejected_witness :
    create_db_from_file [] ⟨"notes.txt", .error "boom", .error "boom"⟩ none =
      .error ("Unsupported file format: " ++ pyLower (splitext "notes.txt").2)
    ∧ upload_handler [] ⟨none, none, none, [], 0⟩
        ⟨"notes.txt", .error "boom", .error "boom"⟩ (fun _ => .ok "") =
        ([], ⟨none, none, none, [], 0⟩, some ("❌ Error processing file: "
          ++ ("Unsupported file format: " ++ pyLower (splitext "notes.txt").2))) :=
  unsupported_extension_rejected [] ⟨none, none, none, [], 0⟩
    ⟨"notes.txt", .error "boom", .error "boom"⟩ (fun _ => .ok "") (by decide)

/-- C2: `query_agent` never propagates an exception — it is a total
function on answers: a raised exception inside the `try` block becomes
the string `Error: <message>`, and a successful invocation's final
message content is returned as is. -/
theorem query_agent_never_raises (agent : Agent) (question : String) :
    (∀ e, agent.behavior question = .error e →
        query_agent agent question = "Error: " ++ e)
    ∧ (∀ a, agent.behavior question = .ok a →
        query_agent agent question = a) := by
  constructor <;> intro x hx <;> simp [query_agent, hx]

/-- Witness for C2: an agent whose invocation raises `boom` answers with
the error string. -/
theorem query_agent_never_raises_witness :
    query_agent ⟨system_message, fun _ => .error "boom"⟩ "q" = "Error: " ++ "boom" :=
  (query_agent_never_raises ⟨system_message, fun _ => .error "boom"⟩ "q").1 "boom" rfl

/-- C3: when two successive ingestions derive the same table name, the
second fully replaces the table: querying the derived name through the
handle returned by the second ingestion yields exactly the new file's
dataframe, and no row of the old file that is absent from the new file is
in the queryable table. -/
theorem reupload_same_name_replaces_table
    (disk d1 d2 : Disk) (f1 f2 : SourceFile) (df1 df2 p1 p2 : DataFrame)
    (h1 h2 : String)
    (hr1 : readOk f1 df1) (hr2 : readOk f2 df2)
    (hc1 : create_db_from_file disk f1 none = .ok (d1, h1, p1))
    (hc2 : create_db_from_file d1 f2 none = .ok (d2, h2, p2))
    (hname : deriveDefaultTableName (splitext (basename f1.path)).1
           = deriveDefaultTableName (splitext (basename f2.path)).1) :
    queryTable d2 h2 (deriveDefaultTableName (splitext (basename f2.path)).1) = some df2
    ∧ ∀ r ∈ df1.rows, r ∉ df2.rows →
        ∀ t, queryTable d2 h2 (deriveDefaultTableName (splitext (basename f2.path)).1)
              = some t → r ∉ t.rows := by
  rw [create_db_from_file_ok d1 f2 df2 hr2] at hc2
  simp only [Except.ok.injEq, Prod.mk.injEq] at hc2
  obtain ⟨hd, hh, hp⟩ := hc2
  subst hd; subst hh
  refine ⟨queryTable_diskWrite .., ?_⟩
  intro r _ hrnot t ht
  rw [queryTable_diskWrite] at ht
  cases ht
  exact hrnot

/-- Witness for C3: re-uploading `sales.csv` leaves only the new rows in
the `sales` table. -/
theorem reupload_same_name_replaces_table_witness :
    queryTable [("sales.db", [("sales", ⟨["region", "amount"], [["e", "3"]]⟩)])]
      "sales.db" (deriveDefaultTableName (splitext (basename "sales.csv")).1)
      = some ⟨["region", "amount"], [["e", "3"]]⟩ :=
  (reupload_same_name_replaces_table []
    [("sales.db", [("sales", ⟨["region", "amount"], [["n", "1"], ["s", "2"]]⟩)])]
    [("sales.db", [("sales", ⟨["region", "amount"], [["e", "3"]]⟩)])]
    ⟨"sales.csv", .ok ⟨["region", "amount"], [["n", "1"], ["s", "2"]]⟩, .error "x"⟩
    ⟨"sales.csv", .ok ⟨["region", "amount"], [["e", "3"]]⟩, .error "x"⟩
    ⟨["region", "amount"], [["n", "1"], ["s", "2"]]⟩
    ⟨["region", "amount"], [["e", "3"]]⟩
    ⟨["region", "amount"], [["n", "1"], ["s", "2"]]⟩
    ⟨["region", "amount"], [["e", "3"]]⟩
    "sales.db" "sales.db"
    (Or.inl ⟨by decide, rfl⟩) (Or.inl ⟨by decide, rfl⟩) rfl rfl rfl).1

/-- C4: with no explicit table name, `create_db_from_file` derives the
name from the file's base-name stem by lower-casing it and replacing
every space and every hyphen with an underscore — passing that derived
name explicitly yields the same ingestion result. -/
theorem default_table_name_derivation (disk : Disk) (file : SourceFile) :
    deriveDefaultTableName (splitext (basename file.path)).1 =
      String.mk ((((splitext (basename file.path)).1).data).map (fun c =>
        if Char.toLower c = ' ' ∨ Char.toLower c = '-' then '_' else Char.toLower c))
    ∧ create_db_from_file disk file none =
      create_db_from_file disk file
        (some (String.mk ((((splitext (basename file.path)).1).data).map (fun c =>
          if Char.toLower c = ' ' ∨ Char.toLower c = '-' then '_' else Char.toLower c)))) := by
  have hl : ∀ l : List Char,
      ((l.map Char.toLower).map (fun c => if c = ' ' then '_' else c)).map
          (fun c => if c = '-' then '_' else c)
        = l.map (fun c =>
            if Char.toLower c = ' ' ∨ Char.toLower c = '-' then '_' else Char.toLower c) := by
    intro l
    simp only [List.map_map]
    congr 1
    funext c
    by_cases hsp : Char.toLower c = ' '
    · simp [Function.comp, hsp]
    · by_cases hhy : Char.toLower c = '-' <;> simp [Function.comp, hsp, hhy]
  have hmap : deriveDefaultTableName (splitext (basename file.path)).1 =
      String.mk ((((splitext (basename file.path)).1).data).map (fun c =>
        if Char.toLower c = ' ' ∨ Char.toLower c = '-' then '_' else Char.toLower c)) := by
    simp only [deriveDefaultTableName, pyReplace, pyLower]
    exact congrArg String.mk (hl ((splitext (basename file.path)).1).data)
  exact ⟨hmap, by simp only [create_db_from_file, hmap]⟩

/-- C5: ingesting a well-formed supported file stores a table whose rows
and columns are exactly the parsed dataframe's, returns that dataframe as
the preview, and the stored table's row and column counts equal the
source's. -/
theorem supported_ingestion_preserves_counts (disk : Disk) (file : SourceFile)
    (df : DataFrame) (h : readOk file df) :
    create_db_from_file disk file none =
      .ok (diskWrite disk ((splitext (basename file.path)).1 ++ ".db")
             (deriveDefaultTableName (splitext (basename file.path)).1) df,
           (splitext (basename file.path)).1 ++ ".db", df)
    ∧ (queryTable (diskWrite disk ((splitext (basename file.path)).1 ++ ".db")
          (deriveDefaultTableName (splitext (basename file.path)).1) df)
        ((splitext (basename file.path)).1 ++ ".db")
        (deriveDefaultTableName (splitext (basename file.path)).1)).map
        (fun t => (t.rows.length, t.columns.length))
      = some (df.rows.length, df.columns.length) := by
  refine ⟨create_db_from_file_ok disk file df h, ?_⟩
  rw [queryTable_diskWrite]
  rfl

/-- Witness for C5: a three-row, two-column `sales data.csv`. -/
theorem supported_ingestion_preserves_counts_witness :
    create_db_from_file []
      ⟨"sales data.csv", .ok ⟨["region", "amount"], [["n", "1"], ["s", "2"], ["e", "3"]]⟩,
        .error "x"⟩ none =
      .ok (diskWrite [] ((splitext (basename "sales data.csv")).1 ++ ".db")
             (deriveDefaultTableName (splitext (basename "sales data.csv")).1)
             ⟨["region", "amount"], [["n", "1"], ["s", "2"], ["e", "3"]]⟩,
           (splitext (basename "sales data.csv")).1 ++ ".db",
           ⟨["region", "amount"], [["n", "1"], ["s", "2"], ["e", "3"]]⟩)
    ∧ (queryTable (diskWrite [] ((splitext (basename "sales data.csv")).1 ++ ".db")
          (deriveDefaultTableName (splitext (basename "sales data.csv")).1)
          ⟨["region", "amount"], [["n", "1"], ["s", "2"], ["e", "3"]]⟩)
        ((splitext (basename "sales data.csv")).1 ++ ".db")
        (deriveDefaultTableName (splitext (basename "sales data.csv")).1)).map
        (fun t => (t.rows.length, t.columns.length))
      = some ((⟨["region", "amount"], [["n", "1"], ["s", "2"], ["e", "3"]]⟩ :
                DataFrame).rows.length,
              (⟨["region", "amount"], [["n", "1"], ["s", "2"], ["e", "3"]]⟩ :
                DataFrame).columns.length) :=
  supported_ingestion_preserves_counts []
    ⟨"sales data.csv", .ok ⟨["region", "amount"], [["n", "1"], ["s", "2"], ["e", "3"]]⟩,
      .error "x"⟩
    ⟨["region", "amount"], [["n", "1"], ["s", "2"], ["e", "3"]]⟩
    (Or.inl ⟨by decide, rfl⟩)

/-- C9: the extension check lower-cases before comparing, so an extension
differing from the allow-list only in letter case is accepted: when the
matching reader succeeds the file is ingested, and any ingestion failure
is a reader (parse) failure, never the unsupported-format error. -/
theorem extension_check_case_insensitive (disk : Disk) (file : SourceFile)
    (hx : pyLower (splitext file.path).2 ∈ allowedExtensions) :
    (∀ df, readOk file df →
        create_db_from_file disk file none =
          .ok (diskWrite disk ((splitext (basename file.path)).1 ++ ".db")
                 (deriveDefaultTableName (splitext (basename file.path)).1) df,
               (splitext (basename file.path)).1 ++ ".db", df))
    ∧ (∀ e, create_db_from_file disk file none = .error e →
        file.read_csv = .error e ∨ file.read_excel = .error e) := by
  refine ⟨fun df h => create_db_from_file_ok disk file df h, ?_⟩
  intro e he
  simp only [allowedExtensions, List.mem_cons, List.not_mem_nil, or_false] at hx
  rcases hx with hx | hx | hx
  · left
    simp only [create_db_from_file, hx] at he
    cases hc : file.read_csv with
    | ok df => rw [hc] at he; simp at he
    | error e2 => rw [hc] at he; simp at he; rw [he]
  · right
    simp only [create_db_from_file, hx] at he
    cases hc : file.read_excel with
    | ok df => rw [hc] at he; simp at he
    | error e2 => rw [hc] at he; simp at he; rw [he]
  · right
    simp only [create_db_from_file, hx] at he
    cases hc : file.read_excel with
    | ok df => rw [hc] at he; simp at he
    | error e2 => rw [hc] at he; simp at he; rw [he]

/-- Witness for C9: `Report.CSV` (upper-case extension) is ingested. -/
theorem extension_check_case_insensitive_witness :
    create_db_from_file [] ⟨"Report.CSV", .ok ⟨["a"], [["1"]]⟩, .error "x"⟩ none =
      .ok (diskWrite [] ((splitext (basename "Report.CSV")).1 ++ ".db")
             (deriveDefaultTableName (splitext (basename "Report.CSV")).1) ⟨["a"], [["1"]]⟩,
           (splitext (basename "Report.CSV")).1 ++ ".db", ⟨["a"], [["1"]]⟩) :=
  (extension_check_case_insensitive [] ⟨"Report.CSV", .ok ⟨["a"], [["1"]]⟩, .error "x"⟩
    (by decide)).1 ⟨["a"], [["1"]]⟩ (Or.inl ⟨by decide, rfl⟩)

/-- C6: whenever ingestion fails — unsupported format or parse error —
the upload handler shows the error text and returns the disk and the
session state (db handle, dataframe, agent, chat history, question
counter) exactly as they were. -/
theorem failed_upload_leaves_session_unchanged (disk : Disk) (s : SessionState)
    (file : SourceFile) (behavior : String → Except String String) (e : String)
    (h : create_db_from_file disk file none = .error e) :
    upload_handler disk s file behavior =
      (disk, s, some ("❌ Error processing file: " ++ e)) := by
  simp [upload_handler, h]

/-- Witness for C6: a malformed `data.csv` whose parse raises leaves the
concrete session untouched. -/
theorem failed_upload_leaves_session_unchanged_witness :
    upload_handler [("old.db", [("old", ⟨["c"], [["1"]]⟩)])]
      ⟨some "old.db", none, some ⟨["c"], [["1"]]⟩, [("q", "a")], 3⟩
      ⟨"data.csv", .error "bad row", .ok ⟨[], []⟩⟩ (fun _ => .ok "") =
      ([("old.db", [("old", ⟨["c"], [["1"]]⟩)])],
       ⟨some "old.db", none, some ⟨["c"], [["1"]]⟩, [("q", "a")], 3⟩,
       some ("❌ Error processing file: " ++ "bad row")) :=
  failed_upload_leaves_session_unchanged [("old.db", [("old", ⟨["c"], [["1"]]⟩)])]
    ⟨some "old.db", none, some ⟨["c"], [["1"]]⟩, [("q", "a")], 3⟩
    ⟨"data.csv", .error "bad row", .ok ⟨[], []⟩⟩ (fun _ => .ok "") "bad row" rfl

set_option maxRecDepth 10000 in
/-- C7: the 5-row limit is enforced only through the textual instruction:
the system prompt contains the limit sentence, the answer is the agent's
output passed through verbatim (no mechanical truncation anywhere in
`query_agent` or `initialize_agent`), and hence for any external agent
behaviour that honours the instruction — at most 5 data rows when the
question names no explicit count — the returned response has at most
5 data rows. -/
theorem row_limit_only_instructional
    (rows : String → Nat) (noExplicitCount : String → Prop)
    (db : String) (behavior : String → Except String String) (q a : String)
    (hcomply : ∀ q2 a2, noExplicitCount q2 → behavior q2 = .ok a2 → rows a2 ≤ 5)
    (hq : noExplicitCount q) (ha : behavior q = .ok a) :
    (∃ pre post, (initialize_agent db behavior).prompt
        = pre ++ limit_instruction ++ post)
    ∧ query_agent (initialize_agent db behavior) q = a
    ∧ rows (query_agent (initialize_agent db behavior) q) ≤ 5 := by
  have hpass : query_agent (initialize_agent db behavior) q = a := by
    simp [query_agent, initialize_agent, ha]
  refine ⟨⟨"\n    You are an agent designed to interact with a SQL database.\n    Given an input question, create a syntactically correct SQLite query to run,\n    then look at the results of the query and return the answer. ",
           "\n\n    You can order the results by a relevant column to return the most interesting\n    examples in the database. Never query for all the columns from a specific table,\n    only ask for the relevant columns given the question.\n\n    You MUST double check your query before executing it. If you get an error while\n    executing a query, rewrite the query and try again.\n\n    DO NOT make any DML statements (INSERT, UPDATE, DELETE, DROP etc.) to the\n    database.\n\n    To start you should ALWAYS look at the tables in the database to see what you\n    can query. Do NOT skip this step.\n\n    Then you should query the schema of the most relevant tables.\n    ",
           rfl⟩, hpass, ?_⟩
  rw [hpass]
  exact hcomply q a hq ha

/-- Witness for C7 with a compliant black-box agent. -/
theorem row_limit_only_instructional_witness :
    (∃ pre post, (initialize_agent "sales.db" (fun _ => .ok "three rows")).prompt
        = pre ++ limit_instruction ++ post)
    ∧ query_agent (initialize_agent "sales.db" (fun _ => .ok "three rows")) "top regions?"
        = "three rows"
    ∧ (fun _ : String => (3 : Nat))
        (query_agent (initialize_agent "sales.db" (fun _ => .ok "three rows")) "top regions?")
        ≤ 5 :=
  row_limit_only_instructional (fun _ : String => (3 : Nat)) (fun _ => True) "sales.db"
    (fun _ => .ok "three rows") "top regions?" "three rows"
    (fun _ _ _ _ => (by decide : (3 : Nat) ≤ 5)) trivial rfl

/-- C8: the Clear Conversation action empties the chat history while the
bound db handle, dataframe, agent and question counter are untouched; and
an answered turn appends exactly one (question, answer) pair at the end
of the history. -/
theorem clear_empties_history_and_turns_append (s : SessionState) (q : String)
    (agent : Agent) (hq : q ≠ "") (ha : s.agent = some agent) :
    (clear_conversation s).chat_history = []
    ∧ (clear_conversation s).db = s.db
    ∧ (clear_conversation s).df = s.df
    ∧ (clear_conversation s).agent = s.agent
    ∧ (clear_conversation s).question_counter = s.question_counter
    ∧ (process_question s true q).chat_history
        = s.chat_history ++ [(q, query_agent agent q)] := by
  refine ⟨rfl, rfl, rfl, rfl, rfl, ?_⟩
  simp [process_question, ha, hq]

set_option maxRecDepth 8000 in
/-- Witness for C8 on a concrete session with one prior turn. -/
theorem clear_empties_history_and_turns_append_witness :
    (clear_conversation
        ⟨some "sales.db", some ⟨system_message, fun _ => .ok "fine"⟩,
         some ⟨["a"], [["1"]]⟩, [("q0", "a0")], 1⟩).chat_history = []
    ∧ (clear_conversation
        ⟨some "sales.db", some ⟨system_message, fun _ => .ok "fine"⟩,
         some ⟨["a"], [["1"]]⟩, [("q0", "a0")], 1⟩).db
        = (⟨some "sales.db", some ⟨system_message, fun _ => .ok "fine"⟩,
            some ⟨["a"], [["1"]]⟩, [("q0", "a0")], 1⟩ : SessionState).db
    ∧ (clear_conversation
        ⟨some "sales.db", some ⟨system_message, fun _ => .ok "fine"⟩,
         some ⟨["a"], [["1"]]⟩, [("q0", "a0")], 1⟩).df
        = (⟨some "sales.db", some ⟨system_message, fun _ => .ok "fine"⟩,
            some ⟨["a"], [["1"]]⟩, [("q0", "a0")], 1⟩ : SessionState).df
    ∧ (clear_conversation
        ⟨some "sales.db", some ⟨system_message, fun _ => .ok "fine"⟩,
         some ⟨["a"], [["1"]]⟩, [("q0", "a0")], 1⟩).agent
        = (⟨some "sales.db", some ⟨system_message, fun _ => .ok "fine"⟩,
            some ⟨["a"], [["1"]]⟩, [("q0", "a0")], 1⟩ : SessionState).agent
    ∧ (clear_conversation
        ⟨some "sales.db", some ⟨system_message, fun _ => .ok "fine"⟩,
         some ⟨["a"], [["1"]]⟩, [("q0", "a0")], 1⟩).question_counter
        = (⟨some "sales.db", some ⟨system_message, fun _ => .ok "fine"⟩,
            some ⟨["a"], [["1"]]⟩, [("q0", "a0")], 1⟩ : SessionState).question_counter
    ∧ (process_question
        ⟨some "sales.db", some ⟨system_message, fun _ => .ok "fine"⟩,
         some ⟨["a"], [["1"]]⟩, [("q0", "a0")], 1⟩ true "how many rows?").chat_history
        = [("q0", "a0")]
          ++ [("how many rows?",
               query_agent ⟨system_message, fun _ => .ok "fine"⟩ "how many rows?")] :=
  clear_empties_history_and_turns_append
    ⟨some "sales.db", some ⟨system_message, fun _ => .ok "fine"⟩,
     some ⟨["a"], [["1"]]⟩, [("q0", "a0")], 1⟩
    "how many rows?" ⟨system_message, fun _ => .ok "fine"⟩ (by decide) rfl

/-- C10: when the Ask button fires with an empty question or with no
agent bound, nothing runs: the session state — history and question
counter included — is returned unchanged. -/
theorem ask_noop_on_empty_question_or_no_agent (s : SessionState) (q : String)
    (h : q = "" ∨ s.agent = none) :
    process_question s true q = s := by
  rcases h with h | h
  · subst h
    cases hag : s.agent with
    | some agent => simp [process_question, hag]
    | none => simp [process_question, hag]
  · simp [process_question, h]

/-- Witness for C10: an empty question on a live session changes
nothing. -/
theorem ask_noop_on_empty_question_or_no_agent_witness :
    process_question ⟨some "sales.db", none, none, [("q0", "a0")], 7⟩ true "" =
      ⟨some "sales.db", none, none, [("q0", "a0")], 7⟩ :=
  ask_noop_on_empty_question_or_no_agent
    ⟨some "sales.db", none, none, [("q0", "a0")], 7⟩ "" (Or.inl rfl)

/-- Witness for C4 at the concrete upload of a mixed-case, spaced,
hyphenated file name. -/
theorem default_table_name_derivation_witness :
    deriveDefaultTableName (splitext (basename "My Sales-Data.csv")).1 =
      String.mk ((((splitext (basename "My Sales-Data.csv")).1).data).map (fun c =>
        if Char.toLower c = ' ' ∨ Char.toLower c = '-' then '_' else Char.toLower c))
    ∧ create_db_from_file [] ⟨"My Sales-Data.csv", .ok ⟨["a"], [["1"]]⟩, .error "x"⟩ none =
      create_db_from_file [] ⟨"My Sales-Data.csv", .ok ⟨["a"], [["1"]]⟩, .error "x"⟩
        (some (String.mk ((((splitext (basename "My Sales-Data.csv")).1).data).map (fun c =>
          if Char.toLower c = ' ' ∨ Char.toLower c = '-' then '_' else Char.toLower c)))) :=
  default_table_name_derivation [] ⟨"My Sales-Data.csv", .ok ⟨["a"], [["1"]]⟩, .error "x"⟩
